import Mathlib

/-!
Verification development for the narrative art piece in `src/src/App.tsx`.

The component is a single-threaded, event-driven state machine.  We embed it
shallowly: the React `useState` cells become the fields of `AppState`; each
document-level event handler becomes a function `AppState → AppState`; each
`setTimeout` callback becomes a `PendingAction` recorded in the state, fired
by an explicit timer event.  JavaScript numbers are modelled as exact
rationals (`ℚ`): every numeric literal in the source (`0.2`, `0.99`, `32.0`,
`128.0`, …) is an exact rational, and all reachable zoom values are small
dyadic/decimal rationals at which the double-precision branch decisions of
the source coincide with the exact ones.  Handlers are modelled as reading
the current authoritative state (the source uses the functional
`setPixelZoomLevel(currentZoom => …)` form for exactly this purpose).
-/

namespace AIVideo

/-- One narrative step of the fixed sequence `narrativeStates` in
`App.tsx` (title together with the symbolic scene name; the body text is
inert for every operation modelled here and is omitted). -/
structure NarrativeStep where
  title : String
  state : String

/-- The eleven-step narrative sequence from `App.tsx` (lines 36-92). -/
def narrativeStates : List NarrativeStep :=
  [{ title := "What is an Image?", state := "quantum" },
   { title := "If We Look Closer, What Do We Find?", state := "pixels" },
   { title := "Mathematical Certainty", state := "coordinates" },
   { title := "The Scale", state := "scale" },
   { title := "Beyond Comprehension", state := "infinite" },
   { title := "The Universal Archive", state := "library" },
   { title := "Signal in the Noise", state := "noise" },
   { title := "A Search Through Static", state := "time" },
   { title := "The Latent Space", state := "navigation" },
   { title := "Guided by Imagination", state := "sublime" },
   { title := "The Expanded Canvas", state := "sublime" }]

/-- A renderable primitive produced by a scene factory (a Three.js
`Mesh`, `Points` or `LineSegments` object, identified by a tag). -/
inductive Prim where
  | mesh (tag : String)
  | points (tag : String)
  | lineSegments (tag : String)
deriving DecidableEq

/-- The scene registry `sceneInitializers` from `App.tsx` (lines 685-1101):
per symbolic name, the list of primitives the factory returns.  The
`pixels` factory is asynchronous in the source (it awaits the image
decode); here the produced primitive list is recorded directly.  An
unknown key is never looked up by the component (all call sites pass a
name from `narrativeStates` or the literal quantum name). -/
def sceneInitializers (state : String) : List Prim :=
  if state = "quantum" then [.mesh "sphere"]
  else if state = "pixels" then [.mesh "pixelGroup"]
  else if state = "coordinates" then [.mesh "plane"]
  else if state = "scale" then [.points "scale"]
  else if state = "infinite" then [.points "infinite"]
  else if state = "library" then [.points "library"]
  else if state = "noise" then [.points "noise"]
  else if state = "time" then (List.range 24).map (fun i => .mesh ("frame" ++ toString i))
  else if state = "navigation" then [.points "neurons", .lineSegments "connections"]
  else if state = "sublime" then [.mesh "wireframeSphere"]
  else []

/-- An outstanding `setTimeout` callback.  `fadeSwap delayMs idx` is the
500 ms cross-fade callback scheduled by an advance or a retreat (it swaps
the narrative content for step `idx`, switches the scene and clears the
transition lock); `firstAdvance delayMs` is the 500 ms first-interaction
callback that invokes `advanceNarrative`. -/
inductive PendingAction where
  | fadeSwap (delayMs : Nat) (idx : ℤ)
  | firstAdvance (delayMs : Nat)
deriving DecidableEq

/-- The mutable state of the component: the five `useState` cells of
`App`, the scene state owned by the Three.js closure (`animationState`
and the current `scene.children`), a ghost counter of factory
invocations (`buildCount`, incremented whenever a scene factory runs;
it is instrumentation for the no-churn properties, not a source
variable), and the list of outstanding timeouts. -/
structure AppState where
  hasInteracted : Bool
  narrativeIndex : ℤ
  isTransitioning : Bool
  pixelZoomLevel : ℚ
  imageZoomLevel : ℚ
  animationState : String
  sceneContents : List Prim
  buildCount : Nat
  pending : List PendingAction

/-- The scene name of narrative step `i` (`narrativeStates[i].state`). -/
def stateOfIndex (i : ℤ) : String :=
  match narrativeStates.get? i.toNat with
  | some s => s.state
  | none => ""

/-- `switchScene` from `App.tsx` (lines 1360-1368): a no-op when the
requested name equals `animationState`; otherwise it records the new
name, removes every prior child and installs the primitives produced by
the factory for the new name (counted by `buildCount`). -/
def switchScene (state : String) (st : AppState) : AppState :=
  if st.animationState = state then st
  else { st with animationState := state,
                 sceneContents := sceneInitializers state,
                 buildCount := st.buildCount + 1 }

/-- `advanceNarrative` from `App.tsx` (lines 95-136): blocked while
`isTransitioning` or at the last step; otherwise it locks, increments the
index and schedules the 500 ms cross-fade callback for the new index. -/
def advanceNarrative (st : AppState) : AppState :=
  if st.isTransitioning = true ∨ (narrativeStates.length : ℤ) - 1 ≤ st.narrativeIndex then st
  else { st with isTransitioning := true,
                 narrativeIndex := st.narrativeIndex + 1,
                 pending := .fadeSwap 500 (st.narrativeIndex + 1) :: st.pending }

/-- The backward-navigation block of `handleWheel` from `App.tsx`
(lines 257-291): it locks, decrements the index and schedules the 500 ms
cross-fade callback for the new index.  Note the source guards it only by
`narrativeIndex > 0`, not by `isTransitioning`. -/
def retreatNarrative (st : AppState) : AppState :=
  { st with isTransitioning := true,
            narrativeIndex := st.narrativeIndex - 1,
            pending := .fadeSwap 500 (st.narrativeIndex - 1) :: st.pending }

/-- `resetExperience` from `App.tsx` (lines 139-158): index back to -1,
interaction and transition flags cleared, image zoom back to 1.0, scene
switched back to the quantum scene.  The source does not touch
`pixelZoomLevel` here. -/
def resetExperience (st : AppState) : AppState :=
  switchScene "quantum"
    { st with narrativeIndex := -1,
              hasInteracted := false,
              isTransitioning := false,
              imageZoomLevel := 1 }

/-- Body of the `+`/`=` key handler and of the on-screen plus button
(`App.tsx` lines 173-181 and 1941-1948): double the image zoom, clamped
to the step-dependent maximum (128.0 from the 0.8 stop upward, 32.0
below). -/
def imageZoomIn (st : AppState) : AppState :=
  let maxZoom : ℚ := if 0.8 ≤ st.pixelZoomLevel then 128 else 32
  { st with imageZoomLevel := min (st.imageZoomLevel * 2) maxZoom }

/-- Body of the `-`/`_` key handler and of the on-screen minus button
(`App.tsx` lines 183-191 and 1954-1959): halve the image zoom, clamped
below at 1.0. -/
def imageZoomOut (st : AppState) : AppState :=
  { st with imageZoomLevel := max (st.imageZoomLevel / 2) 1 }

/-- The guard of the image-zoom keys (`App.tsx` line 172) and of the
on-screen zoom buttons (line 1934): the pixel step with
`0.6 ≤ pixelZoomLevel < 1.0`. -/
def imageZoomWindow (st : AppState) : Prop :=
  st.narrativeIndex = 1 ∧ 0.6 ≤ st.pixelZoomLevel ∧ st.pixelZoomLevel < 1

instance (st : AppState) : Decidable (imageZoomWindow st) := by
  unfold imageZoomWindow; infer_instance

/-- Keydown on `+` or `=` (`App.tsx` lines 171-181): effective only
inside `imageZoomWindow`; any other state falls through untouched. -/
def handleKeyPlus (st : AppState) : AppState :=
  if imageZoomWindow st then imageZoomIn st else st

/-- Keydown on `-` or `_` (`App.tsx` lines 171-172 and 183-191). -/
def handleKeyMinus (st : AppState) : AppState :=
  if imageZoomWindow st then imageZoomOut st else st

/-- The pixel-phase stepper of `handleKeyDown` (`App.tsx` lines 207-234):
below the 0.99 threshold the zoom advances one 0.2 stop (clamped at 1.0);
at the top it resets the image zoom to 1.0, triggers `advanceNarrative`
and resets the pixel zoom to 0. -/
def pixelAdvanceKey (st : AppState) : AppState :=
  if st.pixelZoomLevel < 0.99 then
    { st with pixelZoomLevel := min 1 (st.pixelZoomLevel + 0.2) }
  else
    { advanceNarrative { st with imageZoomLevel := 1 } with pixelZoomLevel := 0 }

/-- The pixel-phase stepper of `handleWheel` (`App.tsx` lines 299-324):
identical to the keyboard stepper except that it does not reset the
image zoom before advancing. -/
def pixelAdvanceWheel (st : AppState) : AppState :=
  if st.pixelZoomLevel < 0.99 then
    { st with pixelZoomLevel := min 1 (st.pixelZoomLevel + 0.2) }
  else
    { advanceNarrative st with pixelZoomLevel := 0 }

/-- Keydown on Space or ArrowDown (`App.tsx` lines 194-238): first
interaction sets the flag and schedules a delayed first advance; on the
pixel step it runs the pixel stepper; otherwise it advances. -/
def handleKeySpace (st : AppState) : AppState :=
  if st.hasInteracted = false then
    { st with hasInteracted := true, pending := .firstAdvance 500 :: st.pending }
  else if st.narrativeIndex = 1 then pixelAdvanceKey st
  else advanceNarrative st

/-- Keydown on `r` or `R` (`App.tsx` lines 165-169). -/
def handleKeyR (st : AppState) : AppState :=
  resetExperience st

/-- A wheel event with negative `deltaY` (`App.tsx` lines 245-293):
ignored before the first interaction; on the pixel step with positive
zoom it steps the zoom back one stop; otherwise, with positive index, it
retreats (without checking the transition lock). -/
def handleWheelUp (st : AppState) : AppState :=
  if st.hasInteracted = false then st
  else if st.narrativeIndex = 1 ∧ 0 < st.pixelZoomLevel then
    { st with pixelZoomLevel := max 0 (st.pixelZoomLevel - 0.2) }
  else if 0 < st.narrativeIndex then retreatNarrative st
  else st

/-- A wheel event with positive `deltaY` (`App.tsx` lines 295-327). -/
def handleWheelDown (st : AppState) : AppState :=
  if st.hasInteracted = false then st
  else if st.narrativeIndex = 1 then pixelAdvanceWheel st
  else advanceNarrative st

/-- Mousemove (`App.tsx` lines 330-346): the first one sets the
interaction flag and schedules the delayed first advance. -/
def handleMouseMove (st : AppState) : AppState :=
  if st.hasInteracted = false then
    { st with hasInteracted := true, pending := .firstAdvance 500 :: st.pending }
  else st

/-- Click on the on-screen plus button (`App.tsx` lines 1934-1952): the
button is only rendered inside `imageZoomWindow`, so a click outside the
window is impossible and modelled as a no-op. -/
def clickZoomInButton (st : AppState) : AppState :=
  if imageZoomWindow st then imageZoomIn st else st

/-- Click on the on-screen minus button (`App.tsx` lines 1934 and
1953-1964). -/
def clickZoomOutButton (st : AppState) : AppState :=
  if imageZoomWindow st then imageZoomOut st else st

/-- Click on the reset button (`App.tsx` lines 1889-1894). -/
def clickResetButton (st : AppState) : AppState :=
  resetExperience st

/-- Remove the first occurrence of a fired timeout from the outstanding
list. -/
def removeFirst (a : PendingAction) : List PendingAction → List PendingAction
  | [] => []
  | b :: rest => if b = a then rest else b :: removeFirst a rest

/-- Fire one scheduled callback.  The cross-fade callback (`App.tsx`
lines 112-132 and 267-287) swaps the narrative content for the recorded
index, switches the scene to that step and clears the transition lock;
the first-interaction callback (lines 199-204 and 339-344) invokes
`advanceNarrative`. -/
def fireAction : PendingAction → AppState → AppState
  | .fadeSwap _ idx, st => { switchScene (stateOfIndex idx) st with isTransitioning := false }
  | .firstAdvance _, st => advanceNarrative st

/-- An externally observable input event, or the expiry of one
outstanding timeout. -/
inductive Event where
  | keyR
  | keyPlus
  | keyMinus
  | keySpace
  | wheelUp
  | wheelDown
  | mouseMove
  | resetButton
  | zoomInButton
  | zoomOutButton
  | timer (a : PendingAction)

/-- One step of the event loop. -/
def step : Event → AppState → AppState
  | .keyR, st => handleKeyR st
  | .keyPlus, st => handleKeyPlus st
  | .keyMinus, st => handleKeyMinus st
  | .keySpace, st => handleKeySpace st
  | .wheelUp, st => handleWheelUp st
  | .wheelDown, st => handleWheelDown st
  | .mouseMove, st => handleMouseMove st
  | .resetButton, st => clickResetButton st
  | .zoomInButton, st => clickZoomInButton st
  | .zoomOutButton, st => clickZoomOutButton st
  | .timer a, st =>
      if a ∈ st.pending then fireAction a { st with pending := removeFirst a st.pending }
      else st

/-- Run a sequence of events. -/
def run (evs : List Event) (st : AppState) : AppState :=
  evs.foldl (fun s e => step e s) st

/-- The state right after mount (`App.tsx` lines 23-27 and 1843-1846):
no interaction, index -1, no transition, zooms at their defaults, the
quantum scene constructed once. -/
def initialState : AppState :=
  { hasInteracted := false,
    narrativeIndex := -1,
    isTransitioning := false,
    pixelZoomLevel := 0,
    imageZoomLevel := 1,
    animationState := "quantum",
    sceneContents := sceneInitializers "quantum",
    buildCount := 1,
    pending := [] }

/-- The quantized pixel-zoom stops declared throughout `App.tsx`
(comment at line 215, progress dots at line 1975). -/
def pixelStops : List ℚ := [0, 0.2, 0.4, 0.6, 0.8, 1]

/-- The state invariant: index within `[-1, N-1]`, pixel zoom on a
quantized stop, image zoom within the global range `[1, 128]`. -/
def Inv (st : AppState) : Prop :=
  -1 ≤ st.narrativeIndex ∧ st.narrativeIndex ≤ 10 ∧
  st.pixelZoomLevel ∈ pixelStops ∧
  1 ≤ st.imageZoomLevel ∧ st.imageZoomLevel ≤ 128

/-- What the pixel-zoom fragment shader renders for a given `uZoom`
value: either the full-resolution texture sample, or a pixelated grid of
`countX` by `countY` cells, with or without the grid-line overlay. -/
inductive GridMode where
  | fullRes
  | pixelated (countX countY : ℚ) (gridLines : Bool)
deriving DecidableEq

/-- The resolution-selection logic of the fragment shader in `App.tsx`
(lines 787-824): `uZoom >= 1.0` samples the texture at full resolution;
otherwise the pixel count is chosen by the `uZoom` band and the
grid-line overlay is applied under the inner `uZoom < 1.0` test. -/
def fragmentGridMode (uZoom uImageWidth uImageHeight : ℚ) : GridMode :=
  if 1 ≤ uZoom then .fullRes
  else
    let pixelCount : ℚ × ℚ :=
      if uZoom < 0.2 then (1, 1)
      else if uZoom < 0.4 then (4, 3)
      else if uZoom < 0.6 then (10, 10)
      else if uZoom < 0.8 then (100, 100)
      else (uImageWidth * 0.5, uImageHeight * 0.5)
    .pixelated pixelCount.1 pixelCount.2 (if uZoom < 1 then true else false)

/-- Modelled from the claim text (for comparison with
`fragmentGridMode`): the band-by-band description of the displayed grid
resolution, written with explicit two-sided interval bounds. -/
def claimGridMode (uZoom uImageWidth uImageHeight : ℚ) : GridMode :=
  if uZoom < 0.2 then .pixelated 1 1 true
  else if 0.2 ≤ uZoom ∧ uZoom < 0.4 then .pixelated 4 3 true
  else if 0.4 ≤ uZoom ∧ uZoom < 0.6 then .pixelated 10 10 true
  else if 0.6 ≤ uZoom ∧ uZoom < 0.8 then .pixelated 100 100 true
  else if 0.8 ≤ uZoom ∧ uZoom < 1 then
    .pixelated (uImageWidth * 0.5) (uImageHeight * 0.5) true
  else .fullRes

/-- An image decoded by the browser and drawn to a canvas, as consumed
by `loadExternalImage` (`App.tsx` lines 611-635): the RGBA byte stream
returned by `getImageData` (modelled as a total function from byte index
to byte value) together with the original dimensions. -/
structure RawImage where
  rgba : ℕ → ℕ
  width : ℕ
  height : ℕ

/-- The RGB image data the pixel scene consumes: byte stream (again a
total function from byte index to byte value), width and height. -/
structure DecodedImage where
  data : ℕ → ℕ
  width : ℕ
  height : ℕ

/-- The RGBA-to-RGB repacking loop of `loadExternalImage` (`App.tsx`
lines 627-632): `rgbData[(i/4)*3 + k] = imageData.data[i + k]` for
`k < 3`, which read backwards is `rgb j = rgba ((j/3)*4 + j%3)`. -/
def rgbaToRgbData (rgba : ℕ → ℕ) : ℕ → ℕ :=
  fun j => rgba ((j / 3) * 4 + j % 3)

/-- `setPixel` from `createSampleImageData` (`App.tsx` lines 502-509):
write one RGB triple at `(x, y)` if it is inside the square image (the
source also checks `0 <= x` and `0 <= y`, automatic over `ℕ`).  The byte
array is modelled as a function, so a write wraps the previous state and
later writes win, exactly as in the imperative source. -/
def setPixel (size x y r g b : ℕ) (data : ℕ → ℕ) : ℕ → ℕ :=
  if x < size ∧ y < size then
    fun i =>
      let index := (y * size + x) * 3
      if i = index then r
      else if i = index + 1 then g
      else if i = index + 2 then b
      else data i
  else data

/-- `createSampleImageData` from `App.tsx` (lines 490-552): the
deterministic 32 by 32 placeholder bitmap (sky-blue background, yellow
smiley face, black eyes and smile, pink centre pixel).  The background
fill loop writes `(135, 206, 235)` at every pixel, i.e. byte `i` holds
the `(i % 3)`-th channel of that colour; the face double loop runs
`x, y` from 6 to 25 and paints where `sqrt(dx^2+dy^2) <= 9`, i.e. where
`dx^2 + dy^2 <= 81`. -/
def createSampleImageData : (ℕ → ℕ) × ℕ :=
  let size := 32
  let background : ℕ → ℕ := fun i =>
    if i % 3 = 0 then 135 else if i % 3 = 1 then 206 else 235
  let withFace : ℕ → ℕ :=
    (List.range' 6 20).foldl (fun d (y : ℕ) =>
      (List.range' 6 20).foldl (fun d (x : ℕ) =>
        let dx : ℤ := (x : ℤ) - 16
        let dy : ℤ := (y : ℤ) - 16
        if dx * dx + dy * dy ≤ 81 then setPixel size x y 255 255 0 d else d) d)
      background
  let d1 := setPixel size 13 13 0 0 0 (setPixel size 12 13 0 0 0
    (setPixel size 13 12 0 0 0 (setPixel size 12 12 0 0 0 withFace)))
  let d2 := setPixel size 19 13 0 0 0 (setPixel size 18 13 0 0 0
    (setPixel size 19 12 0 0 0 (setPixel size 18 12 0 0 0 d1)))
  let d3 := setPixel size 19 20 0 0 0 (setPixel size 18 21 0 0 0
    (setPixel size 17 22 0 0 0 (setPixel size 16 22 0 0 0
    (setPixel size 15 22 0 0 0 (setPixel size 14 22 0 0 0
    (setPixel size 13 21 0 0 0 (setPixel size 12 20 0 0 0 d2)))))))
  let d4 := setPixel size 16 16 255 192 203 d3
  (d4, size)

/-- `loadExternalImage` from `App.tsx` (lines 605-650).  The source
promise installs an `onload` handler that resolves with the RGB repack
of the decoded image at its original dimensions, and an `onerror`
handler that resolves with the placeholder; it never calls a rejection
callback.  The decode outcome is the input here, and totality of this
function models that the promise resolves on every outcome. -/
def loadExternalImage (decodeResult : Option RawImage) : DecodedImage :=
  match decodeResult with
  | some img => { data := rgbaToRgbData img.rgba, width := img.width, height := img.height }
  | none =>
      let sampleData := createSampleImageData
      { data := sampleData.1, width := sampleData.2, height := sampleData.2 }

/-- The RGB triple of pixel `(x, y)` of a decoded image. -/
def pixelAt (img : DecodedImage) (x y : ℕ) : ℕ × ℕ × ℕ :=
  let index := (y * img.width + x) * 3
  (img.data index, img.data (index + 1), img.data (index + 2))

/-- Events reaching the pixel step: a first mousemove, the delayed first
advance and its cross-fade, then one wheel advance and its cross-fade. -/
def reachPixelStepEvents : List Event :=
  [.mouseMove, .timer (.firstAdvance 500), .timer (.fadeSwap 500 0),
   .wheelDown, .timer (.fadeSwap 500 1)]

/-- The state on the pixel step that `reachPixelStepEvents` reaches. -/
def pixelStepState : AppState :=
  { hasInteracted := true,
    narrativeIndex := 1,
    isTransitioning := false,
    pixelZoomLevel := 0,
    imageZoomLevel := 1,
    animationState := "pixels",
    sceneContents := sceneInitializers "pixels",
    buildCount := 2,
    pending := [] }

/-- Events violating the step-dependent image-zoom cap: scroll the pixel
zoom to the 0.8 stop, hold the plus key to 128x, then scroll one stop
back to 0.6 (which does not re-clamp the image zoom). -/
def imageZoomEscapeEvents : List Event :=
  [.wheelDown, .wheelDown, .wheelDown, .wheelDown,
   .keyPlus, .keyPlus, .keyPlus, .keyPlus, .keyPlus, .keyPlus, .keyPlus,
   .wheelUp]

/-- Events for the reset counterexample: two zoom stops, then the reset
key. -/
def resetWithZoomEvents : List Event :=
  [.wheelDown, .wheelDown, .keyR]

/-- Events from the pixel step to a freshly started transition out of
step 2: six keyboard advances (five stops plus the advance), the
cross-fade of the advance to step 2, then one wheel advance. -/
def startThirdTransitionEvents : List Event :=
  [.keySpace, .keySpace, .keySpace, .keySpace, .keySpace, .keySpace,
   .timer (.fadeSwap 500 2), .wheelDown]

/-- Events leaving the pixel step through the wheel while the image zoom
is raised: three stops forward, zoom in once, two more stops, then the
extra wheel advance. -/
def wheelLeaveWithZoomEvents : List Event :=
  [.wheelDown, .wheelDown, .wheelDown, .zoomInButton, .wheelDown, .wheelDown, .wheelDown]

theorem narrativeStates_length : narrativeStates.length = 11 := rfl

theorem run_nil (st : AppState) : run [] st = st := rfl

theorem run_cons (e : Event) (evs : List Event) (st : AppState) :
    run (e :: evs) st = run evs (step e st) := rfl

theorem run_append (a b : List Event) (st : AppState) :
    run (a ++ b) st = run b (run a st) := by
  simp [run, List.foldl_append]

theorem reach_pixel : run reachPixelStepEvents initialState = pixelStepState := by
  norm_num [run, reachPixelStepEvents, initialState, pixelStepState, step,
    handleMouseMove, handleWheelDown, pixelAdvanceWheel, advanceNarrative,
    fireAction, switchScene, stateOfIndex, narrativeStates, sceneInitializers,
    removeFirst, List.foldl]
  simp

theorem imageZoomEscape_state :
    run imageZoomEscapeEvents pixelStepState =
      { pixelStepState with pixelZoomLevel := 0.6, imageZoomLevel := 128 } := by
  norm_num [run, imageZoomEscapeEvents, pixelStepState, step, handleWheelDown,
    handleWheelUp, pixelAdvanceWheel, handleKeyPlus, imageZoomWindow, imageZoomIn,
    List.foldl]

theorem resetWithZoom_state :
    run resetWithZoomEvents pixelStepState =
      { pixelStepState with
          hasInteracted := false
          narrativeIndex := -1
          pixelZoomLevel := 0.4
          animationState := "quantum"
          sceneContents := sceneInitializers "quantum"
          buildCount := 3 } := by
  norm_num [run, resetWithZoomEvents, pixelStepState, step, handleWheelDown,
    pixelAdvanceWheel, handleKeyR, resetExperience, switchScene, sceneInitializers,
    List.foldl]
  simp

theorem startThirdTransition_state :
    run startThirdTransitionEvents pixelStepState =
      { pixelStepState with
          narrativeIndex := 3
          isTransitioning := true
          animationState := "coordinates"
          sceneContents := sceneInitializers "coordinates"
          buildCount := 3
          pending := [.fadeSwap 500 3] } := by
  norm_num [run, startThirdTransitionEvents, pixelStepState, step, handleKeySpace,
    pixelAdvanceKey, advanceNarrative, fireAction, switchScene, stateOfIndex,
    narrativeStates, sceneInitializers, removeFirst, handleWheelDown,
    pixelAdvanceWheel, List.foldl]
  simp

theorem wheelLeaveWithZoom_state :
    run wheelLeaveWithZoomEvents pixelStepState =
      { pixelStepState with
          narrativeIndex := 2
          isTransitioning := true
          imageZoomLevel := 2
          pending := [.fadeSwap 500 2] } := by
  norm_num [run, wheelLeaveWithZoomEvents, pixelStepState, step, handleWheelDown,
    pixelAdvanceWheel, clickZoomInButton, imageZoomWindow, imageZoomIn,
    advanceNarrative, narrativeStates, List.foldl]

theorem mem_pixelStops_iff {p : ℚ} :
    p ∈ pixelStops ↔ p = 0 ∨ p = 0.2 ∨ p = 0.4 ∨ p = 0.6 ∨ p = 0.8 ∨ p = 1 := by
  simp [pixelStops]

theorem pixelStops_step_up {p : ℚ} (hp : p ∈ pixelStops) :
    min 1 (p + 0.2) ∈ pixelStops := by
  rcases mem_pixelStops_iff.mp hp with rfl | rfl | rfl | rfl | rfl | rfl <;>
    norm_num [pixelStops]

theorem pixelStops_step_down {p : ℚ} (hp : p ∈ pixelStops) :
    max 0 (p - 0.2) ∈ pixelStops := by
  rcases mem_pixelStops_iff.mp hp with rfl | rfl | rfl | rfl | rfl | rfl <;>
    norm_num [pixelStops]

theorem inv_set_pz_zero {st : AppState} (h : Inv st) :
    Inv { st with pixelZoomLevel := 0 } := by
  obtain ⟨h1, h2, _, h4, h5⟩ := h
  exact ⟨h1, h2, by norm_num [pixelStops], h4, h5⟩

theorem inv_set_iz_one {st : AppState} (h : Inv st) :
    Inv { st with imageZoomLevel := 1 } := by
  obtain ⟨h1, h2, h3, _, _⟩ := h
  exact ⟨h1, h2, h3, by norm_num, by norm_num⟩

theorem inv_advanceNarrative {st : AppState} (h : Inv st) :
    Inv (advanceNarrative st) := by
  obtain ⟨h1, h2, h3, h4, h5⟩ := h
  unfold advanceNarrative
  split
  · exact ⟨h1, h2, h3, h4, h5⟩
  · rename_i hg
    push_neg at hg
    have hlt : st.narrativeIndex < 10 := by
      have h10 := hg.2
      rw [narrativeStates_length] at h10
      omega
    refine ⟨?_, ?_, h3, h4, h5⟩
    · show -1 ≤ st.narrativeIndex + 1
      omega
    · show st.narrativeIndex + 1 ≤ 10
      omega

theorem inv_retreatNarrative {st : AppState} (h : Inv st)
    (hpos : 0 < st.narrativeIndex) : Inv (retreatNarrative st) := by
  obtain ⟨h1, h2, h3, h4, h5⟩ := h
  refine ⟨?_, ?_, h3, h4, h5⟩
  · show -1 ≤ st.narrativeIndex - 1
    omega
  · show st.narrativeIndex - 1 ≤ 10
    omega

theorem inv_switchScene {st : AppState} (s : String) (h : Inv st) :
    Inv (switchScene s st) := by
  unfold switchScene
  split
  · exact h
  · exact h

theorem inv_fireAction {st : AppState} (a : PendingAction) (h : Inv st) :
    Inv (fireAction a st) := by
  cases a with
  | fadeSwap delayMs idx => exact inv_switchScene (stateOfIndex idx) h
  | firstAdvance delayMs => exact inv_advanceNarrative h

theorem inv_pixelAdvanceKey {st : AppState} (h : Inv st) :
    Inv (pixelAdvanceKey st) := by
  obtain ⟨h1, h2, h3, h4, h5⟩ := h
  unfold pixelAdvanceKey
  split
  · exact ⟨h1, h2, pixelStops_step_up h3, h4, h5⟩
  · exact inv_set_pz_zero (inv_advanceNarrative (inv_set_iz_one ⟨h1, h2, h3, h4, h5⟩))

theorem inv_pixelAdvanceWheel {st : AppState} (h : Inv st) :
    Inv (pixelAdvanceWheel st) := by
  obtain ⟨h1, h2, h3, h4, h5⟩ := h
  unfold pixelAdvanceWheel
  split
  · exact ⟨h1, h2, pixelStops_step_up h3, h4, h5⟩
  · exact inv_set_pz_zero (inv_advanceNarrative ⟨h1, h2, h3, h4, h5⟩)

theorem inv_resetExperience {st : AppState} (h : Inv st) :
    Inv (resetExperience st) := by
  obtain ⟨_, _, h3, _, _⟩ := h
  exact inv_switchScene "quantum" ⟨by norm_num, by norm_num, h3, by norm_num, by norm_num⟩

theorem inv_imageZoomIn {st : AppState} (h : Inv st) : Inv (imageZoomIn st) := by
  obtain ⟨h1, h2, h3, h4, h5⟩ := h
  refine ⟨h1, h2, h3, ?_, ?_⟩
  · show 1 ≤ min (st.imageZoomLevel * 2) (if 0.8 ≤ st.pixelZoomLevel then 128 else 32)
    refine le_min (by linarith) ?_
    split <;> norm_num
  · show min (st.imageZoomLevel * 2) (if 0.8 ≤ st.pixelZoomLevel then 128 else 32) ≤ 128
    refine (min_le_right _ _).trans ?_
    split <;> norm_num

theorem inv_imageZoomOut {st : AppState} (h : Inv st) : Inv (imageZoomOut st) := by
  obtain ⟨h1, h2, h3, h4, h5⟩ := h
  refine ⟨h1, h2, h3, ?_, ?_⟩
  · show 1 ≤ max (st.imageZoomLevel / 2) 1
    exact le_max_right _ _
  · show max (st.imageZoomLevel / 2) 1 ≤ 128
    exact max_le (by linarith) (by norm_num)

theorem inv_step (e : Event) {st : AppState} (h : Inv st) : Inv (step e st) := by
  obtain ⟨h1, h2, h3, h4, h5⟩ := h
  cases e with
  | keyR => exact inv_resetExperience ⟨h1, h2, h3, h4, h5⟩
  | keyPlus =>
      show Inv (handleKeyPlus _)
      unfold handleKeyPlus
      split
      · exact inv_imageZoomIn ⟨h1, h2, h3, h4, h5⟩
      · exact ⟨h1, h2, h3, h4, h5⟩
  | keyMinus =>
      show Inv (handleKeyMinus _)
      unfold handleKeyMinus
      split
      · exact inv_imageZoomOut ⟨h1, h2, h3, h4, h5⟩
      · exact ⟨h1, h2, h3, h4, h5⟩
  | keySpace =>
      show Inv (handleKeySpace _)
      unfold handleKeySpace
      split
      · exact ⟨h1, h2, h3, h4, h5⟩
      · split
        · exact inv_pixelAdvanceKey ⟨h1, h2, h3, h4, h5⟩
        · exact inv_advanceNarrative ⟨h1, h2, h3, h4, h5⟩
  | wheelUp =>
      show Inv (handleWheelUp _)
      unfold handleWheelUp
      split
      · exact ⟨h1, h2, h3, h4, h5⟩
      · split
        · exact ⟨h1, h2, pixelStops_step_down h3, h4, h5⟩
        · split
          · rename_i hpos
            exact inv_retreatNarrative ⟨h1, h2, h3, h4, h5⟩ hpos
          · exact ⟨h1, h2, h3, h4, h5⟩
  | wheelDown =>
      show Inv (handleWheelDown _)
      unfold handleWheelDown
      split
      · exact ⟨h1, h2, h3, h4, h5⟩
      · split
        · exact inv_pixelAdvanceWheel ⟨h1, h2, h3, h4, h5⟩
        · exact inv_advanceNarrative ⟨h1, h2, h3, h4, h5⟩
  | mouseMove =>
      show Inv (handleMouseMove _)
      unfold handleMouseMove
      split
      · exact ⟨h1, h2, h3, h4, h5⟩
      · exact ⟨h1, h2, h3, h4, h5⟩
  | resetButton => exact inv_resetExperience ⟨h1, h2, h3, h4, h5⟩
  | zoomInButton =>
      show Inv (clickZoomInButton _)
      unfold clickZoomInButton
      split
      · exact inv_imageZoomIn ⟨h1, h2, h3, h4, h5⟩
      · exact ⟨h1, h2, h3, h4, h5⟩
  | zoomOutButton =>
      show Inv (clickZoomOutButton _)
      unfold clickZoomOutButton
      split
      · exact inv_imageZoomOut ⟨h1, h2, h3, h4, h5⟩
      · exact ⟨h1, h2, h3, h4, h5⟩
  | timer a =>
      show Inv (if a ∈ st.pending then fireAction a { st with pending := removeFirst a st.pending } else st)
      split
      · exact inv_fireAction a ⟨h1, h2, h3, h4, h5⟩
      · exact ⟨h1, h2, h3, h4, h5⟩

theorem inv_run (evs : List Event) {st : AppState} (h : Inv st) :
    Inv (run evs st) := by
  induction evs generalizing st with
  | nil => exact h
  | cons e evs ih => exact ih (inv_step e h)

theorem inv_initialState : Inv initialState := by
  refine ⟨?_, ?_, ?_, ?_, ?_⟩ <;> norm_num [initialState, pixelStops]

/-- C1 (amended): for every sequence of input events, `narrativeIndex`
stays within `[-1, 10]`, `pixelZoomLevel` stays on one of the quantized
stops `{0, 0.2, 0.4, 0.6, 0.8, 1}`, and `imageZoomLevel` stays within
the global range `[1, 128]`.  (The step-dependent bound of 32 below the
0.8 stop does not hold, see the counterexample.) -/
theorem c1_state_invariant (evs : List Event) :
    -1 ≤ (run evs initialState).narrativeIndex ∧
    (run evs initialState).narrativeIndex ≤ 10 ∧
    (run evs initialState).pixelZoomLevel ∈ pixelStops ∧
    1 ≤ (run evs initialState).imageZoomLevel ∧
    (run evs initialState).imageZoomLevel ≤ 128 :=
  inv_run evs inv_initialState

/-- C1 counterexample: a concrete event sequence reaches a state with
`pixelZoomLevel = 0.6` (below the 0.8 stop) and `imageZoomLevel = 128`,
violating the claimed step-dependent bound `imageZoom ≤ 32` for
`pixelZoom < 0.8` (the wheel-up stop-down path never re-clamps the image
zoom). -/
theorem c1_counterexample :
    (run (reachPixelStepEvents ++ imageZoomEscapeEvents) initialState).pixelZoomLevel = 0.6 ∧
    (run (reachPixelStepEvents ++ imageZoomEscapeEvents) initialState).pixelZoomLevel < 0.8 ∧
    (run (reachPixelStepEvents ++ imageZoomEscapeEvents) initialState).imageZoomLevel = 128 ∧
    ¬ (run (reachPixelStepEvents ++ imageZoomEscapeEvents) initialState).imageZoomLevel ≤ 32 := by
  rw [run_append, reach_pixel, imageZoomEscape_state]
  norm_num [pixelStepState]

/-- C2 (amended): from any state on narrative step 1 with
`pixelZoomLevel = 0` (not transitioning, already interacted), five
consecutive advance inputs move `pixelZoomLevel` through
0.2, 0.4, 0.6, 0.8, 1.0 while the index stays at 1, and the sixth
advance input moves the index to 2 and resets `pixelZoomLevel` to 0
(and, for the keyboard path, `imageZoomLevel` to 1). -/
theorem c2_pixel_traversal (st : AppState) (h1 : st.hasInteracted = true)
    (h2 : st.narrativeIndex = 1) (h3 : st.pixelZoomLevel = 0)
    (h4 : st.isTransitioning = false) :
    (run [.keySpace] st).pixelZoomLevel = 0.2 ∧
    (run [.keySpace, .keySpace] st).pixelZoomLevel = 0.4 ∧
    (run [.keySpace, .keySpace, .keySpace] st).pixelZoomLevel = 0.6 ∧
    (run [.keySpace, .keySpace, .keySpace, .keySpace] st).pixelZoomLevel = 0.8 ∧
    (run [.keySpace, .keySpace, .keySpace, .keySpace, .keySpace] st).pixelZoomLevel = 1 ∧
    (run [.keySpace, .keySpace, .keySpace, .keySpace, .keySpace] st).narrativeIndex = 1 ∧
    (run [.keySpace, .keySpace, .keySpace, .keySpace, .keySpace, .keySpace] st).narrativeIndex = 2 ∧
    (run [.keySpace, .keySpace, .keySpace, .keySpace, .keySpace, .keySpace] st).pixelZoomLevel = 0 ∧
    (run [.keySpace, .keySpace, .keySpace, .keySpace, .keySpace, .keySpace] st).imageZoomLevel = 1 := by
  have s1 : step .keySpace st = { st with pixelZoomLevel := 0.2 } := by
    norm_num [step, handleKeySpace, pixelAdvanceKey, h1, h2, h3, h4]
  have s2 : step .keySpace { st with pixelZoomLevel := 0.2 } =
      { st with pixelZoomLevel := 0.4 } := by
    norm_num [step, handleKeySpace, pixelAdvanceKey, h1, h2, h4]
  have s3 : step .keySpace { st with pixelZoomLevel := 0.4 } =
      { st with pixelZoomLevel := 0.6 } := by
    norm_num [step, handleKeySpace, pixelAdvanceKey, h1, h2, h4]
  have s4 : step .keySpace { st with pixelZoomLevel := 0.6 } =
      { st with pixelZoomLevel := 0.8 } := by
    norm_num [step, handleKeySpace, pixelAdvanceKey, h1, h2, h4]
  have s5 : step .keySpace { st with pixelZoomLevel := 0.8 } =
      { st with pixelZoomLevel := 1 } := by
    norm_num [step, handleKeySpace, pixelAdvanceKey, h1, h2, h4]
  have s6 : step .keySpace { st with pixelZoomLevel := 1 } =
      { st with
          narrativeIndex := 2
          isTransitioning := true
          pixelZoomLevel := 0
          imageZoomLevel := 1
          pending := .fadeSwap 500 2 :: st.pending } := by
    norm_num [step, handleKeySpace, pixelAdvanceKey, advanceNarrative,
      narrativeStates, h1, h2, h4]
  refine ⟨?_, ?_, ?_, ?_, ?_, ?_, ?_, ?_, ?_⟩ <;>
    · simp only [run_cons, run_nil, s1, s2, s3, s4, s5, s6]
      try simp [h2]

/-- Witness for C2: the traversal instantiated at the reachable pixel
step state. -/
theorem c2_pixel_traversal_witness :
    (run [Event.keySpace, Event.keySpace, Event.keySpace, Event.keySpace,
        Event.keySpace] pixelStepState).pixelZoomLevel = 1 ∧
    (run [Event.keySpace, Event.keySpace, Event.keySpace, Event.keySpace,
        Event.keySpace, Event.keySpace] pixelStepState).narrativeIndex = 2 :=
  ⟨(c2_pixel_traversal pixelStepState rfl rfl rfl rfl).2.2.2.2.1,
   (c2_pixel_traversal pixelStepState rfl rfl rfl rfl).2.2.2.2.2.2.1⟩

/-- C2 counterexample: from the reachable pixel-step state with
`pixelZoomLevel = 0`, already the sixth advance input (not the seventh)
moves the narrative index to 2: after six inputs the index is 2, not 1,
so six inputs do not merely traverse the zoom stops as claimed. -/
theorem c2_counterexample :
    run reachPixelStepEvents initialState = pixelStepState ∧
    (run [Event.keySpace, Event.keySpace, Event.keySpace, Event.keySpace,
        Event.keySpace, Event.keySpace] pixelStepState).narrativeIndex = 2 ∧
    ¬ (run [Event.keySpace, Event.keySpace, Event.keySpace, Event.keySpace,
        Event.keySpace, Event.keySpace] pixelStepState).narrativeIndex = 1 := by
  refine ⟨reach_pixel, ?_, ?_⟩ <;>
    norm_num [run, List.foldl, pixelStepState, step, handleKeySpace,
      pixelAdvanceKey, advanceNarrative, narrativeStates]

/-- C3 (amended): the reset operation (the `r`/`R` key and the reset
button both invoke `resetExperience`) sets the narrative index to -1,
clears `hasInteracted` and `isTransitioning`, restores `imageZoomLevel`
to 1.0 and switches the scene back to the quantum scene — but it leaves
`pixelZoomLevel` unchanged rather than restoring it to 0. -/
theorem c3_reset_behavior (st : AppState) :
    handleKeyR st = resetExperience st ∧
    clickResetButton st = resetExperience st ∧
    (resetExperience st).narrativeIndex = -1 ∧
    (resetExperience st).hasInteracted = false ∧
    (resetExperience st).isTransitioning = false ∧
    (resetExperience st).imageZoomLevel = 1 ∧
    (resetExperience st).animationState = "quantum" ∧
    (resetExperience st).pixelZoomLevel = st.pixelZoomLevel := by
  refine ⟨rfl, rfl, ?_, ?_, ?_, ?_, ?_, ?_⟩ <;>
    · unfold resetExperience switchScene
      split <;> simp_all

/-- C3 counterexample: pressing `r` in a reachable state with
`pixelZoomLevel = 0.4` resets everything else but leaves
`pixelZoomLevel` at 0.4, not at its default 0. -/
theorem c3_counterexample :
    (run (reachPixelStepEvents ++ resetWithZoomEvents) initialState).narrativeIndex = -1 ∧
    (run (reachPixelStepEvents ++ resetWithZoomEvents) initialState).hasInteracted = false ∧
    (run (reachPixelStepEvents ++ resetWithZoomEvents) initialState).isTransitioning = false ∧
    (run (reachPixelStepEvents ++ resetWithZoomEvents) initialState).imageZoomLevel = 1 ∧
    (run (reachPixelStepEvents ++ resetWithZoomEvents) initialState).animationState = "quantum" ∧
    (run (reachPixelStepEvents ++ resetWithZoomEvents) initialState).pixelZoomLevel = 0.4 ∧
    ¬ (run (reachPixelStepEvents ++ resetWithZoomEvents) initialState).pixelZoomLevel = 0 := by
  rw [run_append, reach_pixel, resetWithZoom_state]
  norm_num [pixelStepState]

theorem switchScene_narrativeIndex (s : String) (st : AppState) :
    (switchScene s st).narrativeIndex = st.narrativeIndex := by
  unfold switchScene
  split <;> rfl

theorem switchScene_animationState (s : String) (st : AppState) :
    (switchScene s st).animationState = s := by
  unfold switchScene
  split <;> simp_all

/-- C4 (amended): forward transitions are serialized by the transition
lock: while `isTransitioning` is true, `advanceNarrative` is a no-op, so
neither a keyboard advance nor a wheel-down advance can move the index or
construct a scene.  (The wheel-up retreat path is not guarded by the
lock; see the counterexample.) -/
theorem c4_advance_guard (st : AppState) (h : st.isTransitioning = true) :
    advanceNarrative st = st ∧
    (handleKeySpace st).narrativeIndex = st.narrativeIndex ∧
    (handleKeySpace st).buildCount = st.buildCount ∧
    (handleKeySpace st).animationState = st.animationState ∧
    (handleWheelDown st).narrativeIndex = st.narrativeIndex ∧
    (handleWheelDown st).buildCount = st.buildCount ∧
    (handleWheelDown st).animationState = st.animationState := by
  have hadv : ∀ s : AppState, s.isTransitioning = true → advanceNarrative s = s := by
    intro s hs
    unfold advanceNarrative
    rw [if_pos (Or.inl hs)]
  refine ⟨hadv st h, ?_, ?_, ?_, ?_, ?_, ?_⟩ <;>
    · simp only [handleKeySpace, handleWheelDown, pixelAdvanceKey, pixelAdvanceWheel]
      split_ifs <;>
        simp [hadv st h, hadv { st with imageZoomLevel := 1 } h]

/-- Witness for C4: the guard instantiated at a concrete transitioning
state. -/
theorem c4_advance_guard_witness :
    advanceNarrative { initialState with isTransitioning := true } =
      { initialState with isTransitioning := true } ∧
    (handleWheelDown { initialState with isTransitioning := true }).narrativeIndex =
      ({ initialState with isTransitioning := true } : AppState).narrativeIndex :=
  ⟨(c4_advance_guard { initialState with isTransitioning := true } rfl).1,
   (c4_advance_guard { initialState with isTransitioning := true } rfl).2.2.2.2.1⟩

/-- C4 counterexample: a reachable state with `isTransitioning = true`
(index 3, one outstanding cross-fade callback) in which a wheel-up event
nevertheless begins a second transition: the index drops to 2 and a
second cross-fade callback is scheduled while the first is still
pending. -/
theorem c4_counterexample :
    (run (reachPixelStepEvents ++ startThirdTransitionEvents) initialState).isTransitioning = true ∧
    (run (reachPixelStepEvents ++ startThirdTransitionEvents) initialState).narrativeIndex = 3 ∧
    (run (reachPixelStepEvents ++ startThirdTransitionEvents) initialState).pending.length = 1 ∧
    (step .wheelUp
      (run (reachPixelStepEvents ++ startThirdTransitionEvents) initialState)).narrativeIndex = 2 ∧
    (step .wheelUp
      (run (reachPixelStepEvents ++ startThirdTransitionEvents) initialState)).pending.length = 2 := by
  rw [run_append, reach_pixel, startThirdTransition_state]
  norm_num [pixelStepState, step, handleWheelUp, retreatNarrative]

/-- C5: `advanceNarrative` is a no-op exactly under its guard
(`isTransitioning` or already at the last of the 11 steps); otherwise it
locks, increments the index by exactly one, leaves all other narrative
state untouched, and schedules the 500 ms cross-fade callback whose
firing switches the scene to the new step and clears the lock. -/
theorem c5_advance_behavior (st : AppState) :
    (st.isTransitioning = true ∨ (narrativeStates.length : ℤ) - 1 ≤ st.narrativeIndex →
      advanceNarrative st = st) ∧
    (st.isTransitioning = false → st.narrativeIndex < (narrativeStates.length : ℤ) - 1 →
      (advanceNarrative st).isTransitioning = true ∧
      (advanceNarrative st).narrativeIndex = st.narrativeIndex + 1 ∧
      (advanceNarrative st).pixelZoomLevel = st.pixelZoomLevel ∧
      (advanceNarrative st).imageZoomLevel = st.imageZoomLevel ∧
      (advanceNarrative st).animationState = st.animationState ∧
      (advanceNarrative st).buildCount = st.buildCount ∧
      (advanceNarrative st).pending =
        PendingAction.fadeSwap 500 (st.narrativeIndex + 1) :: st.pending ∧
      (fireAction (PendingAction.fadeSwap 500 (st.narrativeIndex + 1))
        (advanceNarrative st)).isTransitioning = false ∧
      (fireAction (PendingAction.fadeSwap 500 (st.narrativeIndex + 1))
        (advanceNarrative st)).narrativeIndex = st.narrativeIndex + 1 ∧
      (fireAction (PendingAction.fadeSwap 500 (st.narrativeIndex + 1))
        (advanceNarrative st)).animationState = stateOfIndex (st.narrativeIndex + 1)) := by
  constructor
  · intro hg
    unfold advanceNarrative
    rw [if_pos hg]
  · intro ht hlt
    have hneg : ¬ (st.isTransitioning = true ∨
        (narrativeStates.length : ℤ) - 1 ≤ st.narrativeIndex) := by
      push_neg
      exact ⟨by simp [ht], hlt⟩
    have hadv : advanceNarrative st =
        { st with
            isTransitioning := true
            narrativeIndex := st.narrativeIndex + 1
            pending := .fadeSwap 500 (st.narrativeIndex + 1) :: st.pending } := by
      unfold advanceNarrative
      rw [if_neg hneg]
    rw [hadv]
    refine ⟨rfl, rfl, rfl, rfl, rfl, rfl, rfl, ?_, ?_, ?_⟩
    · simp [fireAction]
    · simp [fireAction, switchScene_narrativeIndex]
    · simp [fireAction, switchScene_animationState]

/-- Witness for C5: the guarded no-op at a transitioning state and the
successful advance from the initial state. -/
theorem c5_advance_behavior_witness :
    advanceNarrative { initialState with isTransitioning := true } =
      { initialState with isTransitioning := true } ∧
    (advanceNarrative initialState).narrativeIndex = initialState.narrativeIndex + 1 ∧
    (advanceNarrative initialState).isTransitioning = true :=
  ⟨(c5_advance_behavior { initialState with isTransitioning := true }).1 (Or.inl rfl),
   ((c5_advance_behavior initialState).2 rfl (by norm_num [initialState, narrativeStates])).2.1,
   ((c5_advance_behavior initialState).2 rfl (by norm_num [initialState, narrativeStates])).1⟩

/-- C6 (amended): leaving the pixel step resets `pixelZoomLevel` to 0 on
both advance paths, but only the keyboard path also resets
`imageZoomLevel` to 1.0; the wheel advance leaves the image zoom
unchanged (and the wheel-up retreat out of the step touches neither). -/
theorem c6_leave_pixel_step (st : AppState) (h1 : st.hasInteracted = true)
    (h2 : st.narrativeIndex = 1) (h3 : st.isTransitioning = false)
    (h4 : 0.99 ≤ st.pixelZoomLevel) :
    (handleKeySpace st).narrativeIndex = 2 ∧
    (handleKeySpace st).pixelZoomLevel = 0 ∧
    (handleKeySpace st).imageZoomLevel = 1 ∧
    (handleWheelDown st).narrativeIndex = 2 ∧
    (handleWheelDown st).pixelZoomLevel = 0 ∧
    (handleWheelDown st).imageZoomLevel = st.imageZoomLevel := by
  have hnp : ¬ st.pixelZoomLevel < 99 / 100 := by
    rw [not_lt]
    linarith [h4]
  refine ⟨?_, ?_, ?_, ?_, ?_, ?_⟩ <;>
    norm_num [handleKeySpace, handleWheelDown, pixelAdvanceKey, pixelAdvanceWheel,
      advanceNarrative, narrativeStates, h1, h2, h3, hnp]

/-- Witness for C6: instantiated at the reachable pixel-step state with
`pixelZoomLevel = 1` and a raised image zoom. -/
theorem c6_leave_pixel_step_witness :
    (handleKeySpace { pixelStepState with pixelZoomLevel := 1, imageZoomLevel := 2 }).narrativeIndex = 2 ∧
    (handleKeySpace { pixelStepState with pixelZoomLevel := 1, imageZoomLevel := 2 }).pixelZoomLevel = 0 ∧
    (handleKeySpace { pixelStepState with pixelZoomLevel := 1, imageZoomLevel := 2 }).imageZoomLevel = 1 ∧
    (handleWheelDown { pixelStepState with pixelZoomLevel := 1, imageZoomLevel := 2 }).narrativeIndex = 2 ∧
    (handleWheelDown { pixelStepState with pixelZoomLevel := 1, imageZoomLevel := 2 }).pixelZoomLevel = 0 ∧
    (handleWheelDown { pixelStepState with pixelZoomLevel := 1, imageZoomLevel := 2 }).imageZoomLevel =
      ({ pixelStepState with pixelZoomLevel := 1, imageZoomLevel := 2 } : AppState).imageZoomLevel :=
  c6_leave_pixel_step { pixelStepState with pixelZoomLevel := 1, imageZoomLevel := 2 }
    rfl rfl rfl (by norm_num)

/-- C6 counterexample: leaving the pixel step through the wheel with a
raised image zoom (2x, set at the 0.6 stop by the on-screen button):
after the advance to step 2 the pixel zoom is reset to 0 but the image
zoom is still 2, not its default 1. -/
theorem c6_counterexample :
    (run (reachPixelStepEvents ++ wheelLeaveWithZoomEvents) initialState).narrativeIndex = 2 ∧
    (run (reachPixelStepEvents ++ wheelLeaveWithZoomEvents) initialState).pixelZoomLevel = 0 ∧
    (run (reachPixelStepEvents ++ wheelLeaveWithZoomEvents) initialState).imageZoomLevel = 2 ∧
    ¬ (run (reachPixelStepEvents ++ wheelLeaveWithZoomEvents) initialState).imageZoomLevel = 1 := by
  rw [run_append, reach_pixel, wheelLeaveWithZoom_state]
  norm_num [pixelStepState]

/-- C7: `switchScene` is idempotent on the scene name: requesting the
current name leaves the state untouched (no primitive is removed or
constructed, the factory does not run); requesting a different name
replaces the whole primitive list with the output of the new factory,
run exactly once, so exactly one scene is installed at a time. -/
theorem c7_switchScene_idempotent (st : AppState) (s : String) :
    (st.animationState = s → switchScene s st = st) ∧
    (¬ st.animationState = s →
      (switchScene s st).animationState = s ∧
      (switchScene s st).sceneContents = sceneInitializers s ∧
      (switchScene s st).buildCount = st.buildCount + 1) := by
  constructor
  · intro h
    unfold switchScene
    rw [if_pos h]
  · intro h
    unfold switchScene
    rw [if_neg h]
    exact ⟨rfl, rfl, rfl⟩

/-- Witness for C7: the no-op at the already-active quantum scene and
the one-shot construction of the pixel scene. -/
theorem c7_switchScene_idempotent_witness :
    switchScene "quantum" initialState = initialState ∧
    (switchScene "pixels" initialState).animationState = "pixels" ∧
    (switchScene "pixels" initialState).sceneContents = sceneInitializers "pixels" ∧
    (switchScene "pixels" initialState).buildCount = initialState.buildCount + 1 :=
  ⟨(c7_switchScene_idempotent initialState "quantum").1 rfl,
   ((c7_switchScene_idempotent initialState "pixels").2 (by decide)).1,
   ((c7_switchScene_idempotent initialState "pixels").2 (by decide)).2.1,
   ((c7_switchScene_idempotent initialState "pixels").2 (by decide)).2.2⟩

/-- C8: the fragment shader selects the displayed grid resolution from
the discretized zoom exactly as claimed: `uZoom < 0.2` gives a 1 by 1
grid, `[0.2, 0.4)` gives 4 by 3, `[0.4, 0.6)` gives 10 by 10,
`[0.6, 0.8)` gives 100 by 100, `[0.8, 1.0)` gives half the image
resolution, all with grid lines; `uZoom ≥ 1.0` samples at full
resolution with no pixelation and no grid lines. -/
theorem c8_fragment_grid_selection (uZoom uImageWidth uImageHeight : ℚ) :
    fragmentGridMode uZoom uImageWidth uImageHeight =
      claimGridMode uZoom uImageWidth uImageHeight := by
  simp only [fragmentGridMode, claimGridMode]
  split_ifs <;> first
    | rfl
    | (exfalso; push_neg at *; linarith)
    | (exfalso; push_neg at *; simp_all; linarith)

set_option maxRecDepth 10000 in
/-- C9: the image loader resolves on every decode outcome (it is a total
function of the outcome): a successful decode yields the RGB repack of
the decoded bytes at the original width and height, and a failed decode
yields the deterministic 32 by 32 smiley placeholder — sky-blue corner,
pink centre pixel, black left eye, yellow cheek — so the pixel scene can
always construct. -/
theorem c9_loadExternalImage :
    (∀ img : RawImage, loadExternalImage (some img) =
      { data := rgbaToRgbData img.rgba, width := img.width, height := img.height }) ∧
    (loadExternalImage none).width = 32 ∧
    (loadExternalImage none).height = 32 ∧
    (loadExternalImage none).data = createSampleImageData.1 ∧
    pixelAt (loadExternalImage none) 0 0 = (135, 206, 235) ∧
    pixelAt (loadExternalImage none) 16 16 = (255, 192, 203) ∧
    pixelAt (loadExternalImage none) 12 12 = (0, 0, 0) ∧
    pixelAt (loadExternalImage none) 16 10 = (255, 255, 0) := by
  refine ⟨fun img => rfl, rfl, rfl, rfl, ?_, ?_, ?_, ?_⟩ <;> decide

/-- C10: the image-zoom keys have an effect only inside the window
`narrativeIndex = 1 ∧ 0.6 ≤ pixelZoomLevel < 1.0`: outside it (including
the final stop `pixelZoomLevel = 1` and every non-pixel step) the plus
and minus handlers return the state unchanged; inside it they change
only `imageZoomLevel`, by doubling clamped to the step-dependent cap
respectively halving clamped at 1. -/
theorem c10_image_zoom_keys (st : AppState) :
    (¬ imageZoomWindow st →
      handleKeyPlus st = st ∧ handleKeyMinus st = st ∧
      clickZoomInButton st = st ∧ clickZoomOutButton st = st) ∧
    (imageZoomWindow st →
      (handleKeyPlus st).imageZoomLevel =
        min (st.imageZoomLevel * 2) (if 0.8 ≤ st.pixelZoomLevel then 128 else 32) ∧
      (handleKeyPlus st).narrativeIndex = st.narrativeIndex ∧
      (handleKeyPlus st).pixelZoomLevel = st.pixelZoomLevel ∧
      (handleKeyPlus st).isTransitioning = st.isTransitioning ∧
      (handleKeyPlus st).hasInteracted = st.hasInteracted ∧
      (handleKeyMinus st).imageZoomLevel = max (st.imageZoomLevel / 2) 1 ∧
      (handleKeyMinus st).narrativeIndex = st.narrativeIndex ∧
      (handleKeyMinus st).pixelZoomLevel = st.pixelZoomLevel ∧
      (handleKeyMinus st).isTransitioning = st.isTransitioning ∧
      (handleKeyMinus st).hasInteracted = st.hasInteracted) := by
  constructor
  · intro h
    unfold handleKeyPlus handleKeyMinus clickZoomInButton clickZoomOutButton
    rw [if_neg h, if_neg h]
    exact ⟨rfl, rfl, rfl, rfl⟩
  · intro h
    unfold handleKeyPlus handleKeyMinus imageZoomIn imageZoomOut
    rw [if_pos h, if_pos h]
    exact ⟨rfl, rfl, rfl, rfl, rfl, rfl, rfl, rfl, rfl, rfl⟩

/-- Witness for C10: the keys are dead at the initial state (a non-pixel
step) and effective at the reachable pixel-step state on the 0.8 stop. -/
theorem c10_image_zoom_keys_witness :
    handleKeyPlus initialState = initialState ∧
    (handleKeyPlus { pixelStepState with pixelZoomLevel := 0.8 }).imageZoomLevel =
      min (({ pixelStepState with pixelZoomLevel := 0.8 } : AppState).imageZoomLevel * 2)
        (if (0.8 : ℚ) ≤ ({ pixelStepState with pixelZoomLevel := 0.8 } : AppState).pixelZoomLevel
          then 128 else 32) :=
  ⟨((c10_image_zoom_keys initialState).1
      (by norm_num [imageZoomWindow, initialState])).1,
   ((c10_image_zoom_keys { pixelStepState with pixelZoomLevel := 0.8 }).2
      (by norm_num [imageZoomWindow, pixelStepState])).1⟩

end AIVideo
